import Mathlib

set_option maxRecDepth 4000

/-!
Verification of the CS Portfolio backend (`main.py`, `schemas.py`): a shallow
embedding of the seeding routine, the list/contact/diagnostics handlers and the
document-store adapter contract, with theorems settling the specified
behavioural claims.

The store adapter (`database.py`) is an external collaborator: only its
contract (`create_document`, `get_documents`, both fallible) is given by the
specification, so the store models below are written from that contract and
each handler is verified for every adapter behaviour its model can exhibit.
-/

namespace CSPortfolio

/-- A value held in a document record, as the Python layer sees it:
`None`, booleans, (integral) numbers, strings, store-assigned object
identifiers (shown as their hex string), and arrays (every array value in
this repository's records is a list of tag strings). -/
inductive Val where
  | none_ : Val
  | bool (b : Bool) : Val
  | num (n : Int) : Val
  | str (s : String) : Val
  | oid (hex : String) : Val
  | arr (elems : List String) : Val
deriving DecidableEq, Repr

/-- Python truthiness of a value: `None`, `False`, `0`, the empty string and
the empty list are falsy; an ObjectId is always truthy. -/
def Val.truthy : Val → Bool
  | .none_ => false
  | .bool b => b
  | .num n => n != 0
  | .str s => !s.isEmpty
  | .oid _ => true
  | .arr l => !l.isEmpty

/-- Python `str()` on a value. An ObjectId prints as its hex string. (Array
elements are rendered without the quoting of Python `repr`; identifier values,
the only ones `str()` is applied to in this code, are scalars.) -/
def Val.pyStr : Val → String
  | .none_ => "None"
  | .bool b => if b then "True" else "False"
  | .num n => toString n
  | .str s => s
  | .oid hex => hex
  | .arr elems => "[" ++ String.intercalate ", " elems ++ "]"

/-- A document record: a Python dict from field names to values. Records
coming from the store have pairwise-distinct keys; the operations below give
dict semantics on the first occurrence of a key. -/
abbrev Doc := List (String × Val)

/-- `d.get(k)`: the value at key `k`, or `None` (here `Option.none`). -/
def Doc.get : Doc → String → Option Val
  | [], _ => none
  | p :: rest, k => if p.1 == k then some p.2 else Doc.get rest k

/-- `k in d`: whether the key is present. -/
def Doc.hasKey (d : Doc) (k : String) : Bool :=
  (Doc.get d k).isSome

/-- `d[k] = v`: replaces the entry in place (keeping its position), or appends
a new entry when the key is absent. -/
def Doc.set : Doc → String → Val → Doc
  | [], k, v => [(k, v)]
  | p :: rest, k, v => if p.1 == k then (k, v) :: rest else p :: Doc.set rest k v

/-- The removal effect of `d.pop(k)`. -/
def Doc.removeKey (d : Doc) (k : String) : Doc :=
  d.filter (fun p => p.1 != k)

/-- The body of the identifier-renaming loop in `list_services`/`list_blogs`
(main.py lines 108-110 and 125-127): `if s.get("_id"): s["id"] = str(s.pop("_id"))`. -/
def rename_id (s : Doc) : Doc :=
  match Doc.get s "_id" with
  | some v => if Val.truthy v then Doc.set (Doc.removeKey s "_id") "id" (Val.str (Val.pyStr v)) else s
  | none => s

/-- The JSON body and status an HTTP client of the two list endpoints sees. -/
structure ListResponse where
  status : Nat
  data : List Doc
  warning : Option String
deriving DecidableEq, Repr

/-- The hardcoded fallback services of `list_services` (main.py lines 114-117). -/
def services_fallback : List Doc :=
  [[("title", Val.str "Company Incorporation"),
    ("summary", Val.str "End-to-end incorporation with MCA."),
    ("icon", Val.str "building2"),
    ("starting_price", Val.num 8999),
    ("tags", Val.arr ["startup"])],
   [("title", Val.str "Annual ROC Filings"),
    ("summary", Val.str "AOC-4, MGT-7 & more."),
    ("icon", Val.str "file-text"),
    ("starting_price", Val.num 4999),
    ("tags", Val.arr ["compliance"])]]

/-- The hardcoded fallback posts of `list_blogs` (main.py lines 130-133). -/
def blogs_fallback : List Doc :=
  [[("title", Val.str "ROC Annual Filing Checklist for Private Companies (FY 2024-25)"),
    ("slug", Val.str "roc-annual-filing-checklist-2024-25"),
    ("excerpt", Val.str "A concise checklist to complete AOC-4, MGT-7 and key approvals."),
    ("tags", Val.arr ["roc", "checklist"])],
   [("title", Val.str "DIR-3 KYC: Due Dates, Forms and Penalties"),
    ("slug", Val.str "dir-3-kyc-due-dates-forms"),
    ("excerpt", Val.str "Everything about Director KYC and how to avoid deactivation."),
    ("tags", Val.arr ["dir-3", "kyc"])]]

/-- GET `/api/services` (main.py lines 103-118). The handler's single store
interaction is one `get_documents("service")` call; it is parametrized by
that call's outcome (`Except.error e` models the call raising, with `e` the
exception's `str()`). -/
def list_services (fetched : Except String (List Doc)) : ListResponse :=
  match fetched with
  | .ok services => { status := 200, data := services.map rename_id, warning := none }
  | .error e => { status := 200, data := services_fallback, warning := some (e.take 120) }

/-- GET `/api/blogs` (main.py lines 121-134), parametrized like `list_services`
by the outcome of `get_documents("blogpost")`. -/
def list_blogs (fetched : Except String (List Doc)) : ListResponse :=
  match fetched with
  | .ok posts => { status := 200, data := posts.map rename_id, warning := none }
  | .error e => { status := 200, data := blogs_fallback, warning := some (e.take 120) }

/-- `schemas.Service`. `starting_price` is `Optional[float]` constrained
non-negative; every price in this repository is integral, so it is modelled as
an `Option Nat` (non-negativity is then inherent) to keep equality decidable. -/
structure Service where
  title : String
  summary : String
  icon : Option String := none
  starting_price : Option Nat := none
  tags : List String := []
deriving DecidableEq, Repr

/-- `schemas.BlogPost`. `cover_image` is an optional URL, kept as its string. -/
structure BlogPost where
  title : String
  slug : String
  excerpt : String
  content : String
  author : String := "Admin"
  cover_image : Option String := none
  tags : List String := []
deriving DecidableEq, Repr

/-- `schemas.ContactMessage`, as validated by the schema layer before the
handler runs (`email` has already passed format validation); `created_at` is
an opaque optional timestamp, modelled by its string form. -/
structure ContactMessage where
  name : String
  email : String
  phone : Option String := none
  subject : String
  message : String
  source : Option String := none
  created_at : Option String := none
deriving DecidableEq, Repr

/-- The ten default services of `_seed_services_if_empty` (main.py lines 35-46). -/
def service_defaults : List Service :=
  [{ title := "Company Incorporation (Pvt Ltd/LLP)",
     summary := "End-to-end incorporation with DIN, DSC, name approval, MOA/AOA, PAN & TAN.",
     icon := some "building2", starting_price := some 8999, tags := ["startup", "roc", "mca"] },
   { title := "Annual ROC Filings",
     summary := "AOC-4, MGT-7, board reports, AGM documentation and compliance calendar.",
     icon := some "file-text", starting_price := some 4999, tags := ["roc", "compliance"] },
   { title := "Director KYC (DIR-3 KYC)",
     summary := "KYC for directors with DSC assistance and filing.",
     icon := some "id-card", starting_price := some 999, tags := ["dir-3", "kyc"] },
   { title := "GST Registration & Returns",
     summary := "GSTIN registration, monthly/quarterly returns and advisory.",
     icon := some "receipt", starting_price := some 1499, tags := ["gst", "tax"] },
   { title := "Share Allotment & Transfer",
     summary := "PAS-3, SH-7, share certificates issue/transfer and register maintenance.",
     icon := some "layers", starting_price := some 3499, tags := ["secretarial", "shares"] },
   { title := "Secretarial Audit & Compliance",
     summary := "Event-based filings, board/GM minutes, registers and due diligence.",
     icon := some "shield-check", starting_price := some 6999, tags := ["audit", "secretarial"] },
   { title := "MSME/Udyam Registration",
     summary := "Register your enterprise under Udyam for government benefits.",
     icon := some "badge-check", starting_price := some 799, tags := ["msme", "udyam"] },
   { title := "Trademark Filing (Partner Network)",
     summary := "Facilitated TM search and filing through trusted IP partners.",
     icon := some "copyright", starting_price := some 2999, tags := ["ip", "brand"] },
   { title := "ESOP/Cap Table Advisory",
     summary := "Design ESOP policies, grants and basic cap table setup.",
     icon := some "pie-chart", starting_price := some 5999, tags := ["esop", "advisory"] },
   { title := "FEMA/FDI Compliance",
     summary := "FC-GPR/FC-TRS filings, share pricing and RBI compliance.",
     icon := some "globe", starting_price := some 9999, tags := ["fema", "fdi"] }]

/-- The three default posts of `_seed_blogs_if_empty` (main.py lines 62-84). -/
def blog_defaults : List BlogPost :=
  [{ title := "ROC Annual Filing Checklist for Private Companies (FY 2024-25)",
     slug := "roc-annual-filing-checklist-2024-25",
     excerpt := "A concise checklist to complete AOC-4, MGT-7 and key board approvals on time.",
     content := "Step-by-step guide covering financial statements, board report, auditor report, AOC-4, MGT-7/7A, due dates and penalties.",
     tags := ["roc", "checklist", "private-company"] },
   { title := "DIR-3 KYC: Due Dates, Forms and Penalties",
     slug := "dir-3-kyc-due-dates-forms",
     excerpt := "Everything about Director KYC and how to avoid deactivation.",
     content := "Who needs to file DIR-3 KYC, documents required, e-Form vs Web KYC, timelines and fees.",
     tags := ["dir-3", "kyc"] },
   { title := "Incorporation: Pvt Ltd vs LLP in India",
     slug := "incorporation-pvtltd-vs-llp",
     excerpt := "Structure, compliance and taxation comparison to choose the right entity.",
     content := "We cover partner liability, compliance burden, funding readiness and exit scenarios.",
     tags := ["incorporation", "llp", "pvtltd"] }]

/-- Modelled from the spec: the document store adapter (`database.py`, not
under `src/`) as seen by the seeding routine, restricted to one collection
holding records of type `α`: its current records in insertion order,
whether the store is reachable for queries (`get_documents` raises when it is
not), and which records the store accepts on insertion (`create_document`
raises on the others — this one predicate covers both `StoreUnavailable`
and `WriteError` failures of the contract). -/
structure SeedStore (α : Type) where
  docs : List α
  reachable : Bool
  insertOk : α → Bool

/-- Adapter contract `get_documents(collection, filter={}, limit)`: the
records, in store order, up to `limit` when given; raises when the store is
unreachable. -/
def SeedStore.get_documents (st : SeedStore α) (limit : Option Nat) :
    Except String (List α) :=
  if st.reachable then
    Except.ok (match limit with
      | some n => st.docs.take n
      | none => st.docs)
  else Except.error "store unavailable"

/-- Adapter contract `create_document(collection, record)`: appends the record
or raises when the store rejects it. -/
def SeedStore.create_document (st : SeedStore α) (a : α) :
    Except String (SeedStore α) :=
  if st.insertOk a then Except.ok { st with docs := st.docs ++ [a] }
  else Except.error "insert failed"

/-- The seeding insert loop (main.py lines 47-51 and 85-89): one
`create_document` per default, `except Exception: pass` around each. -/
def seedInsertLoop (st : SeedStore α) (defaults : List α) : SeedStore α :=
  defaults.foldl
    (fun s a =>
      match SeedStore.create_document s a with
      | .ok s' => s'
      | .error _ => s)
    st

/-- The common shape of the two seeding functions: query at most one record
(`get_documents(coll, {}, limit=1)`); on a raised query or a non-empty result
return immediately, otherwise run the insert loop over the defaults. Besides
the final store it returns the number of `create_document` calls the run
makes (each loop iteration makes exactly one). -/
def seed_if_empty (defaults : List α) (st : SeedStore α) : SeedStore α × Nat :=
  match SeedStore.get_documents st (some 1) with
  | .error _ => (st, 0)
  | .ok existing =>
    if !existing.isEmpty then (st, 0)
    else (seedInsertLoop st defaults, defaults.length)

/-- `_seed_services_if_empty` (main.py lines 26-51) over the modelled store. -/
def _seed_services_if_empty (st : SeedStore Service) : SeedStore Service × Nat :=
  seed_if_empty service_defaults st

/-- `_seed_blogs_if_empty` (main.py lines 54-89) over the modelled store. -/
def _seed_blogs_if_empty (st : SeedStore BlogPost) : SeedStore BlogPost × Nat :=
  seed_if_empty blog_defaults st

/-- The fixed acknowledgment body of POST `/api/contact` (`ContactResponse`
in main.py lines 21-23). -/
structure ContactResponse where
  status : String
  message : String
deriving DecidableEq, Repr

/-- A raised `fastapi.HTTPException`, as the HTTP client sees it: the error
status and the `detail` field of the JSON body. -/
structure HTTPException where
  status_code : Nat
  detail : String
deriving DecidableEq, Repr

/-- Modelled from the spec: the document store adapter (`database.py`, not
under `src/`) as seen by the contact endpoint: the `contactmessage`
collection in insertion order, and the failure `create_document` raises
(`str()` of the exception) when it is failing. -/
structure ContactStore where
  messages : List ContactMessage
  createFailure : Option String
deriving DecidableEq, Repr

/-- Adapter contract `create_document("contactmessage", message)`: persists
the record, or raises without persisting when the store is failing. -/
def ContactStore.create_document (st : ContactStore) (m : ContactMessage) :
    Except String ContactStore :=
  match st.createFailure with
  | some e => Except.error e
  | none => Except.ok { st with messages := st.messages ++ [m] }

/-- POST `/api/contact` (main.py lines 137-143): on a successful write,
the fixed acknowledgment; on a raised write, `HTTPException(500, ...)` with
the error description truncated to 100 characters. Returns the store after
the call (unchanged when the write raised) with the outcome. -/
def submit_contact (st : ContactStore) (message : ContactMessage) :
    ContactStore × Except HTTPException ContactResponse :=
  match ContactStore.create_document st message with
  | .ok st' =>
      (st', Except.ok { status := "ok", message := "Thank you! We'll reach out shortly." })
  | .error e =>
      (st, Except.error { status_code := 500,
                          detail := "Unable to submit right now: " ++ e.take 100 })

/-- Modelled from the spec: the store handle `db` when it is not `None` —
its `name` attribute when present (`hasattr(db, 'name')`), and the outcome of
`db.list_collection_names()`. -/
structure DbInfo where
  name : Option String
  list_collection_names : Except String (List String)

/-- The two configuration environment variables read by `/test`
(`os.getenv` yields `None` when a variable is unset). -/
structure Env where
  DATABASE_URL : Option String
  DATABASE_NAME : Option String
deriving DecidableEq, Repr

/-- Python truthiness of an `os.getenv` result: `None` and the empty string
are falsy. -/
def envTruthy : Option String → Bool
  | some s => !s.isEmpty
  | none => false

/-- The JSON body returned by GET `/test` (main.py lines 149-156). The
`database_url` and `database_name` fields start as `None` and are assigned
strings along the way, so they carry `Val`. -/
structure TestResponse where
  backend : String
  database : String
  database_url : Val
  database_name : Val
  connection_status : String
  collections : List String
deriving DecidableEq, Repr

/-- GET `/test` (main.py lines 146-177), over the modelled handle and
environment. The outer `try` guards only the `db is not None` test and
attribute reads, which cannot raise in this model; the inner `try` guards
`list_collection_names`. The final two assignments (lines 174-176)
unconditionally overwrite `database_url` and `database_name` with the
environment-presence indicators. -/
def test_database (db : Option DbInfo) (env : Env) : TestResponse :=
  let r0 : TestResponse :=
    { backend := "✅ Running",
      database := "❌ Not Available",
      database_url := Val.none_,
      database_name := Val.none_,
      connection_status := "Not Connected",
      collections := [] }
  let r1 :=
    match db with
    | some info =>
        let ra :=
          { r0 with
            database := "✅ Available",
            database_url := Val.str "✅ Configured",
            database_name :=
              (match info.name with
               | some n => Val.str n
               | none => Val.str "✅ Connected"),
            connection_status := "Connected" }
        match info.list_collection_names with
        | .ok collections =>
            { ra with collections := collections.take 10,
                      database := "✅ Connected & Working" }
        | .error e =>
            { ra with database := "⚠️  Connected but Error: " ++ e.take 50 }
    | none => { r0 with database := "⚠️  Available but not initialized" }
  { r1 with
    database_url := Val.str (if envTruthy env.DATABASE_URL then "✅ Set" else "❌ Not Set"),
    database_name := Val.str (if envTruthy env.DATABASE_NAME then "✅ Set" else "❌ Not Set") }

/-- A sample service record, for concrete witnesses. -/
def sampleService : Service :=
  { title := "Some Service", summary := "A service already in the store." }

/-- A sample blog record, for concrete witnesses. -/
def sampleBlog : BlogPost :=
  { title := "Some Post", slug := "some-post", excerpt := "e", content := "c" }

/-- A healthy service store already holding one record. -/
def nonemptyServiceStore : SeedStore Service :=
  { docs := [sampleService], reachable := true, insertOk := fun _ => true }

/-- A healthy blog store already holding one record. -/
def nonemptyBlogStore : SeedStore BlogPost :=
  { docs := [sampleBlog], reachable := true, insertOk := fun _ => true }

/-- A healthy empty service store. -/
def emptyServiceStore : SeedStore Service :=
  { docs := [], reachable := true, insertOk := fun _ => true }

/-- A healthy empty blog store. -/
def emptyBlogStore : SeedStore BlogPost :=
  { docs := [], reachable := true, insertOk := fun _ => true }

/-- An unreachable service store. -/
def unreachableServiceStore : SeedStore Service :=
  { docs := [], reachable := false, insertOk := fun _ => true }

/-- An unreachable blog store. -/
def unreachableBlogStore : SeedStore BlogPost :=
  { docs := [], reachable := false, insertOk := fun _ => true }

/-- An empty service store that rejects exactly the "Annual ROC Filings"
default record on insertion. -/
def rejectingServiceStore : SeedStore Service :=
  { docs := [], reachable := true, insertOk := fun a => a.title != "Annual ROC Filings" }

/-- An empty blog store that rejects exactly the DIR-3 KYC default post. -/
def rejectingBlogStore : SeedStore BlogPost :=
  { docs := [], reachable := true,
    insertOk := fun a => a.slug != "dir-3-kyc-due-dates-forms" }

/-- The titles of the ten default services, in order. -/
def service_default_titles : List String :=
  ["Company Incorporation (Pvt Ltd/LLP)", "Annual ROC Filings",
   "Director KYC (DIR-3 KYC)", "GST Registration & Returns",
   "Share Allotment & Transfer", "Secretarial Audit & Compliance",
   "MSME/Udyam Registration", "Trademark Filing (Partner Network)",
   "ESOP/Cap Table Advisory", "FEMA/FDI Compliance"]

/-- The valid payload of the spec's contact scenario. -/
def sampleContact : ContactMessage :=
  { name := "A", email := "a@b.com", subject := "S", message := "M" }

/-- A contact store whose writes always raise. -/
def failingContactStore : ContactStore :=
  { messages := [], createFailure := some "database connection refused" }

/-- A healthy, empty contact store. -/
def healthyContactStore : ContactStore :=
  { messages := [], createFailure := none }

/-- A store handle with an obtainable name and a responding collection list. -/
def namedDbInfo : DbInfo :=
  { name := some "portfolio_db",
    list_collection_names := Except.ok ["service", "blogpost"] }

/-- A record carrying a truthy store-assigned identifier. -/
def oidDoc : Doc := [("_id", Val.oid "665f1c2e9b3a"), ("title", Val.str "T")]

/-- A record carrying `_id` with the falsy value `0`. -/
def falsyIdDoc : Doc := [("_id", Val.num 0), ("title", Val.str "x")]

/-- A record carrying `_id` with the falsy empty-string value. -/
def emptyIdDoc : Doc := [("_id", Val.str ""), ("slug", Val.str "p")]

theorem seedInsertLoop_spec (defaults : List α) : ∀ st : SeedStore α,
    (seedInsertLoop st defaults).docs = st.docs ++ defaults.filter st.insertOk ∧
    (seedInsertLoop st defaults).reachable = st.reachable ∧
    (seedInsertLoop st defaults).insertOk = st.insertOk := by
  induction defaults with
  | nil => intro st; simp [seedInsertLoop]
  | cons a rest ih =>
    intro st
    cases h : st.insertOk a with
    | true =>
      have h1 : seedInsertLoop st (a :: rest)
          = seedInsertLoop { st with docs := st.docs ++ [a] } rest := by
        simp [seedInsertLoop, SeedStore.create_document, h]
      obtain ⟨d, r, i⟩ := ih { st with docs := st.docs ++ [a] }
      rw [h1]
      refine ⟨?_, r, i⟩
      rw [d]; simp [List.filter_cons, h]
    | false =>
      have h1 : seedInsertLoop st (a :: rest) = seedInsertLoop st rest := by
        simp [seedInsertLoop, SeedStore.create_document, h]
      obtain ⟨d, r, i⟩ := ih st
      rw [h1]
      refine ⟨d.trans (by simp [List.filter_cons, h]), r, i⟩

theorem seed_if_empty_nonempty_noop (defaults : List α) (st : SeedStore α)
    (hr : st.reachable = true) (hd : st.docs ≠ []) :
    seed_if_empty defaults st = (st, 0) := by
  cases h : st.docs with
  | nil => exact absurd h hd
  | cons a rest => simp [seed_if_empty, SeedStore.get_documents, hr, h]

theorem seed_if_empty_unreachable_noop (defaults : List α) (st : SeedStore α)
    (hr : st.reachable = false) :
    seed_if_empty defaults st = (st, 0) := by
  simp [seed_if_empty, SeedStore.get_documents, hr]

theorem seed_if_empty_empty_run (defaults : List α) (st : SeedStore α)
    (hr : st.reachable = true) (hd : st.docs = []) :
    (seed_if_empty defaults st).1.docs = defaults.filter st.insertOk ∧
    (seed_if_empty defaults st).1.reachable = true ∧
    (seed_if_empty defaults st).1.insertOk = st.insertOk ∧
    (seed_if_empty defaults st).2 = defaults.length := by
  have h1 : seed_if_empty defaults st = (seedInsertLoop st defaults, defaults.length) := by
    simp [seed_if_empty, SeedStore.get_documents, hr, hd]
  obtain ⟨d, r, i⟩ := seedInsertLoop_spec defaults st
  rw [h1]
  exact ⟨by rw [d, hd]; simp, by rw [r, hr], i, rfl⟩

/-- C1: seeding is idempotent — for each managed collection, a reachable
store already holding a record makes the routine perform zero inserts and
leave the store unchanged; and against an initially empty healthy store the
first invocation performs the one insertion pass over all defaults while a
second invocation makes zero `create_document` calls and changes nothing. -/
theorem C1_seeding_idempotent :
    (∀ st : SeedStore Service, st.reachable = true → st.docs ≠ [] →
        _seed_services_if_empty st = (st, 0)) ∧
    (∀ st : SeedStore BlogPost, st.reachable = true → st.docs ≠ [] →
        _seed_blogs_if_empty st = (st, 0)) ∧
    (∀ st : SeedStore Service, st.reachable = true → st.docs = [] →
        (∀ a, st.insertOk a = true) →
        (_seed_services_if_empty st).2 = service_defaults.length ∧
        _seed_services_if_empty (_seed_services_if_empty st).1
          = ((_seed_services_if_empty st).1, 0)) ∧
    (∀ st : SeedStore BlogPost, st.reachable = true → st.docs = [] →
        (∀ a, st.insertOk a = true) →
        (_seed_blogs_if_empty st).2 = blog_defaults.length ∧
        _seed_blogs_if_empty (_seed_blogs_if_empty st).1
          = ((_seed_blogs_if_empty st).1, 0)) := by
  refine ⟨fun st hr hd => seed_if_empty_nonempty_noop _ st hr hd,
          fun st hr hd => seed_if_empty_nonempty_noop _ st hr hd,
          fun st hr hd hok => ?_, fun st hr hd hok => ?_⟩
  · obtain ⟨d, r, i, n⟩ := seed_if_empty_empty_run service_defaults st hr hd
    refine ⟨n, seed_if_empty_nonempty_noop _ _ r ?_⟩
    simp only [_seed_services_if_empty]
    rw [d, List.filter_eq_self.mpr (fun a _ => hok a)]
    simp [service_defaults]
  · obtain ⟨d, r, i, n⟩ := seed_if_empty_empty_run blog_defaults st hr hd
    refine ⟨n, seed_if_empty_nonempty_noop _ _ r ?_⟩
    simp only [_seed_blogs_if_empty]
    rw [d, List.filter_eq_self.mpr (fun a _ => hok a)]
    simp [blog_defaults]

theorem C1_seeding_idempotent_witness :
    _seed_services_if_empty nonemptyServiceStore = (nonemptyServiceStore, 0) ∧
    _seed_blogs_if_empty nonemptyBlogStore = (nonemptyBlogStore, 0) ∧
    (_seed_services_if_empty emptyServiceStore).2 = service_defaults.length ∧
    _seed_services_if_empty (_seed_services_if_empty emptyServiceStore).1
      = ((_seed_services_if_empty emptyServiceStore).1, 0) ∧
    (_seed_blogs_if_empty emptyBlogStore).2 = blog_defaults.length ∧
    _seed_blogs_if_empty (_seed_blogs_if_empty emptyBlogStore).1
      = ((_seed_blogs_if_empty emptyBlogStore).1, 0) := by
  obtain ⟨h1, h2, h3, h4⟩ := C1_seeding_idempotent
  obtain ⟨s1, s2⟩ := h3 emptyServiceStore rfl rfl (fun _ => rfl)
  obtain ⟨b1, b2⟩ := h4 emptyBlogStore rfl rfl (fun _ => rfl)
  exact ⟨h1 nonemptyServiceStore rfl (by simp [nonemptyServiceStore]),
         h2 nonemptyBlogStore rfl (by simp [nonemptyBlogStore]),
         s1, s2, b1, b2⟩

/-- C4: with a store that is unreachable when the emptiness query runs, each
seeding function is a silent total no-op: it returns normally with the store
unchanged and makes zero `create_document` calls. -/
theorem C4_unreachable_silent_noop :
    (∀ st : SeedStore Service, st.reachable = false →
        _seed_services_if_empty st = (st, 0)) ∧
    (∀ st : SeedStore BlogPost, st.reachable = false →
        _seed_blogs_if_empty st = (st, 0)) :=
  ⟨fun st hr => seed_if_empty_unreachable_noop _ st hr,
   fun st hr => seed_if_empty_unreachable_noop _ st hr⟩

theorem C4_unreachable_silent_noop_witness :
    _seed_services_if_empty unreachableServiceStore = (unreachableServiceStore, 0) ∧
    _seed_blogs_if_empty unreachableBlogStore = (unreachableBlogStore, 0) :=
  ⟨C4_unreachable_silent_noop.1 unreachableServiceStore rfl,
   C4_unreachable_silent_noop.2 unreachableBlogStore rfl⟩

/-- C5: on an empty reachable store, the insert loop attempts one
`create_document` call per default and the records that end up stored are
exactly the defaults the store accepts, in the defaults' order. -/
theorem C5_insert_failures_skipped :
    (∀ st : SeedStore Service, st.reachable = true → st.docs = [] →
        (_seed_services_if_empty st).1.docs = service_defaults.filter st.insertOk ∧
        (_seed_services_if_empty st).2 = service_defaults.length) ∧
    (∀ st : SeedStore BlogPost, st.reachable = true → st.docs = [] →
        (_seed_blogs_if_empty st).1.docs = blog_defaults.filter st.insertOk ∧
        (_seed_blogs_if_empty st).2 = blog_defaults.length) := by
  constructor
  · intro st hr hd
    obtain ⟨d, _, _, n⟩ := seed_if_empty_empty_run service_defaults st hr hd
    exact ⟨d, n⟩
  · intro st hr hd
    obtain ⟨d, _, _, n⟩ := seed_if_empty_empty_run blog_defaults st hr hd
    exact ⟨d, n⟩

theorem C5_insert_failures_skipped_witness :
    (_seed_services_if_empty rejectingServiceStore).1.docs
      = service_defaults.filter rejectingServiceStore.insertOk ∧
    (_seed_services_if_empty rejectingServiceStore).2 = service_defaults.length ∧
    (_seed_blogs_if_empty rejectingBlogStore).1.docs
      = blog_defaults.filter rejectingBlogStore.insertOk ∧
    (_seed_blogs_if_empty rejectingBlogStore).2 = blog_defaults.length := by
  obtain ⟨hs1, hs2⟩ := C5_insert_failures_skipped.1 rejectingServiceStore rfl rfl
  obtain ⟨hb1, hb2⟩ := C5_insert_failures_skipped.2 rejectingBlogStore rfl rfl
  exact ⟨hs1, hs2, hb1, hb2⟩

/-- C6: starting from an empty healthy store, running the service seeding and
then querying the collection (`get_documents("service")`, no limit) yields
exactly 10 records whose titles are the default list's titles, in order. -/
theorem C6_seed_then_query (st : SeedStore Service)
    (hr : st.reachable = true) (hd : st.docs = [])
    (hok : ∀ a, st.insertOk a = true) :
    ∃ docs, SeedStore.get_documents (_seed_services_if_empty st).1 none
        = Except.ok docs ∧
      docs.length = 10 ∧ docs.map Service.title = service_default_titles := by
  have hall : service_defaults.filter st.insertOk = service_defaults :=
    List.filter_eq_self.mpr (fun a _ => hok a)
  obtain ⟨d, r, _, _⟩ := seed_if_empty_empty_run service_defaults st hr hd
  rw [hall] at d
  refine ⟨service_defaults, ?_, by decide, by decide⟩
  simp only [_seed_services_if_empty] at d r ⊢
  simp only [SeedStore.get_documents, r, if_true]
  rw [d]

theorem C6_seed_then_query_witness :
    ∃ docs, SeedStore.get_documents (_seed_services_if_empty emptyServiceStore).1 none
        = Except.ok docs ∧
      docs.length = 10 ∧ docs.map Service.title = service_default_titles :=
  C6_seed_then_query emptyServiceStore rfl rfl (fun _ => rfl)

theorem strTake_length_le (s : String) (n : Nat) : (s.take n).length ≤ n := by
  rw [String.take_eq]
  exact List.length_take_le ..

theorem strTake_ne_empty (s : String) (n : Nat) (hs : s ≠ "") (hn : 0 < n) :
    s.take n ≠ "" := by
  rw [String.take_eq]
  intro h
  apply hs
  have hd : s.data.take n = [] := congrArg String.data h
  rcases List.take_eq_nil_iff.mp hd with h0 | hnil
  · omega
  · cases s
    simp_all

/-- C2 counterexample: a store adapter whose `get_documents` raises an
exception with an empty `str()` yields the fallback with an empty `warning`
string on both read endpoints, so the warning is not always non-empty. -/
theorem C2_counterexample :
    (list_services (Except.error "")).status = 200 ∧
    (list_services (Except.error "")).warning = some "" ∧
    (list_blogs (Except.error "")).warning = some "" := by
  have h : "".take 120 = "" := by decide
  exact ⟨rfl, by simp [list_services, h], by simp [list_blogs, h]⟩

/-- C2 (amended): whenever `get_documents` raises with description `e`, both
read endpoints return HTTP 200 with exactly the 2 hardcoded fallback records
and a `warning` equal to `e` truncated to 120 characters — hence of length at
most 120, and non-empty whenever `e` is non-empty. -/
theorem C2_fallback_invariant (e : String) :
    (list_services (Except.error e)).status = 200 ∧
    (list_services (Except.error e)).data = services_fallback ∧
    (list_services (Except.error e)).data.length = 2 ∧
    (list_services (Except.error e)).warning = some (e.take 120) ∧
    (list_blogs (Except.error e)).status = 200 ∧
    (list_blogs (Except.error e)).data = blogs_fallback ∧
    (list_blogs (Except.error e)).data.length = 2 ∧
    (list_blogs (Except.error e)).warning = some (e.take 120) ∧
    (e.take 120).length ≤ 120 ∧
    (e ≠ "" → e.take 120 ≠ "") :=
  ⟨rfl, rfl, rfl, rfl, rfl, rfl, rfl, rfl,
   strTake_length_le e 120, fun h => strTake_ne_empty e 120 h (by decide)⟩

theorem C2_fallback_invariant_witness :
    ("db down" : String) ≠ "" ∧
    (list_services (Except.error "db down")).data.length = 2 ∧
    (list_services (Except.error "db down")).warning = some ("db down".take 120) ∧
    (list_blogs (Except.error "db down")).warning = some ("db down".take 120) ∧
    "db down".take 120 ≠ "" := by
  obtain ⟨-, -, hlen, hw, -, -, -, hbw, -, hne⟩ := C2_fallback_invariant "db down"
  exact ⟨by decide, hlen, hw, hbw, hne (by decide)⟩

/-- C3: when `create_document` raises with description `e`, POST
`/api/contact` with a valid payload raises `HTTPException(500)` whose `detail`
embeds `e` truncated to at most 100 characters, and nothing is persisted. -/
theorem C3_contact_write_failure (st : ContactStore) (e : String)
    (hf : st.createFailure = some e) (m : ContactMessage) :
    (submit_contact st m).2
        = Except.error { status_code := 500,
                         detail := "Unable to submit right now: " ++ e.take 100 } ∧
    (e.take 100).length ≤ 100 ∧
    (submit_contact st m).1 = st := by
  refine ⟨?_, strTake_length_le e 100, ?_⟩ <;>
    simp [submit_contact, ContactStore.create_document, hf]

theorem C3_contact_write_failure_witness :
    (submit_contact failingContactStore sampleContact).2
        = Except.error { status_code := 500,
                         detail := "Unable to submit right now: "
                           ++ "database connection refused".take 100 } ∧
    ("database connection refused".take 100).length ≤ 100 ∧
    (submit_contact failingContactStore sampleContact).1 = failingContactStore :=
  C3_contact_write_failure failingContactStore "database connection refused" rfl sampleContact

theorem doc_get_removeKey_self (d : Doc) (k : String) :
    Doc.get (Doc.removeKey d k) k = none := by
  induction d with
  | nil => rfl
  | cons p rest ih =>
    by_cases h : p.1 = k
    · simpa [Doc.removeKey, List.filter_cons, h] using ih
    · simpa [Doc.removeKey, List.filter_cons, h, Doc.get] using ih

theorem doc_get_set_self (d : Doc) (k : String) (v : Val) :
    Doc.get (Doc.set d k v) k = some v := by
  induction d with
  | nil => simp [Doc.set, Doc.get]
  | cons p rest ih =>
    by_cases h : p.1 = k
    · simp [Doc.set, Doc.get, h]
    · simp [Doc.set, Doc.get, h, ih]

theorem doc_get_set_ne (d : Doc) (k k' : String) (v : Val) (h : k ≠ k') :
    Doc.get (Doc.set d k' v) k = Doc.get d k := by
  have h' : k' ≠ k := Ne.symm h
  induction d with
  | nil => simp [Doc.set, Doc.get, h']
  | cons p rest ih =>
    by_cases hp : p.1 = k'
    · simp [Doc.set, Doc.get, hp, h']
    · simp [Doc.set, Doc.get, hp, ih]

/-- C7 counterexample: a record carrying `_id` with the falsy value `0`
passes through `list_services` unchanged — the response record still carries
`_id` and gains no `id` — so the claim fails for records whose carried `_id`
is falsy. -/
theorem C7_counterexample :
    (list_services (Except.ok [falsyIdDoc])).data = [falsyIdDoc] ∧
    Doc.hasKey falsyIdDoc "_id" = true ∧
    Doc.hasKey falsyIdDoc "id" = false := by
  refine ⟨?_, by decide, by decide⟩
  simp [list_services, rename_id, falsyIdDoc, Doc.get, Val.truthy]

/-- C7 (amended): every record on the success path of the two read endpoints
that carries a truthy `_id` value appears in the response with that value's
`str()` under the public `id` field and without the `_id` field. -/
theorem C7_id_renaming (docs : List Doc) (d : Doc) (hd : d ∈ docs) (v : Val)
    (hv : Doc.get d "_id" = some v) (ht : Val.truthy v = true) :
    rename_id d ∈ (list_services (Except.ok docs)).data ∧
    rename_id d ∈ (list_blogs (Except.ok docs)).data ∧
    Doc.get (rename_id d) "id" = some (Val.str (Val.pyStr v)) ∧
    Doc.hasKey (rename_id d) "_id" = false := by
  have hr : rename_id d = Doc.set (Doc.removeKey d "_id") "id" (Val.str (Val.pyStr v)) := by
    simp [rename_id, hv, ht]
  refine ⟨?_, ?_, ?_, ?_⟩
  · exact List.mem_map_of_mem rename_id hd
  · exact List.mem_map_of_mem rename_id hd
  · rw [hr]; exact doc_get_set_self _ _ _
  · rw [hr]
    unfold Doc.hasKey
    rw [doc_get_set_ne _ "_id" "id" _ (by decide), doc_get_removeKey_self]
    rfl

theorem C7_id_renaming_witness :
    rename_id oidDoc ∈ (list_services (Except.ok [oidDoc])).data ∧
    rename_id oidDoc ∈ (list_blogs (Except.ok [oidDoc])).data ∧
    Doc.get (rename_id oidDoc) "id" = some (Val.str (Val.pyStr (Val.oid "665f1c2e9b3a"))) ∧
    Doc.hasKey (rename_id oidDoc) "_id" = false :=
  C7_id_renaming [oidDoc] oidDoc (by simp) (Val.oid "665f1c2e9b3a") rfl rfl

/-- C8: with a healthy store, POST `/api/contact` appends the validated
message to the `contactmessage` collection and returns exactly the fixed
acknowledgment. -/
theorem C8_contact_success (st : ContactStore) (hf : st.createFailure = none)
    (m : ContactMessage) :
    submit_contact st m
      = ({ messages := st.messages ++ [m], createFailure := none },
         Except.ok { status := "ok", message := "Thank you! We'll reach out shortly." }) := by
  cases st with
  | mk msgs cf =>
    cases hf
    rfl

theorem C8_contact_success_witness :
    submit_contact healthyContactStore sampleContact
      = ({ messages := healthyContactStore.messages ++ [sampleContact], createFailure := none },
         Except.ok { status := "ok", message := "Thank you! We'll reach out shortly." }) :=
  C8_contact_success healthyContactStore rfl sampleContact

/-- C9 counterexample: with a store handle whose name `"portfolio_db"` is
obtainable, the final `/test` snapshot contains that name nowhere — the
`database_name` field it was written to is unconditionally overwritten by the
`DATABASE_NAME` env-presence indicator (main.py lines 174-176). -/
theorem C9_counterexample :
    test_database (some namedDbInfo) { DATABASE_URL := none, DATABASE_NAME := none }
      = { backend := "✅ Running", database := "✅ Connected & Working",
          database_url := Val.str "❌ Not Set", database_name := Val.str "❌ Not Set",
          connection_status := "Connected", collections := ["service", "blogpost"] } := by
  decide

/-- C9 (amended): `/test` is total (it never throws) and independently
reports: liveness always `"✅ Running"`; at most 10 collection names, exactly
`cols.take 10` when the handle responds with `cols`; an error marker with the
description truncated to 50 characters, and no collections, when the
collection listing raises; a distinct marker when the handle is absent; and
the presence (Python truthiness) of the two environment variables — these two
indicators replace the transiently computed store name, whatever the handle
does. -/
theorem C9_diagnostics_snapshot (db : Option DbInfo) (env : Env) :
    (test_database db env).backend = "✅ Running" ∧
    (test_database db env).collections.length ≤ 10 ∧
    (∀ info, db = some info → ∀ cols, info.list_collection_names = Except.ok cols →
        (test_database db env).collections = cols.take 10 ∧
        (test_database db env).database = "✅ Connected & Working") ∧
    (∀ info e, db = some info → info.list_collection_names = Except.error e →
        (test_database db env).collections = [] ∧
        (test_database db env).database = "⚠️  Connected but Error: " ++ e.take 50) ∧
    (db = none → (test_database db env).database = "⚠️  Available but not initialized") ∧
    (test_database db env).database_url
        = Val.str (if envTruthy env.DATABASE_URL then "✅ Set" else "❌ Not Set") ∧
    (test_database db env).database_name
        = Val.str (if envTruthy env.DATABASE_NAME then "✅ Set" else "❌ Not Set") := by
  cases db with
  | none =>
    refine ⟨rfl, by simp [test_database], ?_, ?_, fun _ => rfl, rfl, rfl⟩
    · intro info h; exact absurd h (by simp)
    · intro info e h; exact absurd h (by simp)
  | some info =>
    cases hc : info.list_collection_names with
    | ok cols =>
      refine ⟨by simp [test_database, hc], ?_, ?_, ?_, by simp, ?_, ?_⟩
      · simp only [test_database, hc]
        simp
      · intro info' h cols' hc'
        injection h with h2
        subst h2
        rw [hc] at hc'
        injection hc' with h3
        subst h3
        exact ⟨by simp [test_database, hc], by simp [test_database, hc]⟩
      · intro info' e h hc'
        injection h with h2
        subst h2
        rw [hc] at hc'
        exact absurd hc' (by simp)
      · simp [test_database, hc]
      · simp [test_database, hc]
    | error e =>
      refine ⟨by simp [test_database, hc], ?_, ?_, ?_, by simp, ?_, ?_⟩
      · simp [test_database, hc]
      · intro info' h cols' hc'
        injection h with h2
        subst h2
        rw [hc] at hc'
        exact absurd hc' (by simp)
      · intro info' e' h hc'
        injection h with h2
        subst h2
        rw [hc] at hc'
        injection hc' with h3
        subst h3
        exact ⟨by simp [test_database, hc], by simp [test_database, hc]⟩
      · simp [test_database, hc]
      · simp [test_database, hc]

theorem C9_diagnostics_snapshot_witness :
    (test_database (some namedDbInfo)
        { DATABASE_URL := some "mongodb://localhost", DATABASE_NAME := none }).backend
      = "✅ Running" ∧
    (test_database (some namedDbInfo)
        { DATABASE_URL := some "mongodb://localhost", DATABASE_NAME := none }).collections
      = (["service", "blogpost"] : List String).take 10 := by
  obtain ⟨hb, -, hok, -, -, -, -⟩ :=
    C9_diagnostics_snapshot (some namedDbInfo)
      { DATABASE_URL := some "mongodb://localhost", DATABASE_NAME := none }
  exact ⟨hb, (hok namedDbInfo rfl ["service", "blogpost"] rfl).1⟩

/-- C10: on the success path of both read endpoints, a record whose `_id` is
absent or falsy is passed through unchanged: no `id` field is added and a
falsy `_id`, if present, is retained. -/
theorem C10_falsy_id_passthrough (d : Doc)
    (h : Doc.get d "_id" = none ∨ ∃ v, Doc.get d "_id" = some v ∧ Val.truthy v = false) :
    rename_id d = d ∧
    (list_services (Except.ok [d])).data = [d] ∧
    (list_blogs (Except.ok [d])).data = [d] := by
  have hr : rename_id d = d := by
    rcases h with h | ⟨v, hv, ht⟩
    · simp [rename_id, h]
    · simp [rename_id, hv, ht]
  exact ⟨hr, by simp [list_services, hr], by simp [list_blogs, hr]⟩

theorem C10_falsy_id_passthrough_witness :
    rename_id emptyIdDoc = emptyIdDoc ∧
    (list_services (Except.ok [emptyIdDoc])).data = [emptyIdDoc] ∧
    (list_blogs (Except.ok [emptyIdDoc])).data = [emptyIdDoc] :=
  C10_falsy_id_passthrough emptyIdDoc (Or.inr ⟨Val.str "", rfl, rfl⟩)

end CSPortfolio
